import Mathlib

/-!
Shallow embedding of the valuation server in `src/Server.js` and proofs about
the claims of its specification.

Modelling conventions:
* JavaScript strings are Lean `String`s; character-level operations work on
  `List Char`.  `toUpperCase` is modelled on the ASCII range (the range the
  source's regexes inspect).
* JSON payload fields are `Option`-valued; a JSON number is a rational
  (JavaScript numbers are modelled as exact rationals, `Math.round` as
  floor of x + 1/2), a JSON string is a `String`.
* The upstream HTTP gateway (`callPropertyDataAPI`) is an oracle
  `Call → Net`: a call either resolves with a parsed payload (`Net.ok`) or
  throws (`Net.exn`), the thrown error optionally carrying the provider's
  error-response body (`error.response?.data`).
-/

/-! ### ASCII character classes used by the source's regexes -/

def isLowerA (c : Char) : Bool := decide (97 ≤ c.toNat) && decide (c.toNat ≤ 122)

def isUpperA (c : Char) : Bool := decide (65 ≤ c.toNat) && decide (c.toNat ≤ 90)

def isDigitA (c : Char) : Bool := decide (48 ≤ c.toNat) && decide (c.toNat ≤ 57)

def isAlphaAny (c : Char) : Bool := isLowerA c || isUpperA c

def isAlnumAny (c : Char) : Bool := isAlphaAny c || isDigitA c

/-- Whitespace as matched by the source's `trim` and `\s`. -/
def isWS (c : Char) : Bool := c == ' ' || c == '\t' || c == '\n' || c == '\r'

/-- ASCII upper-casing of one character (JavaScript `toUpperCase` restricted
to the ASCII range inspected by the postcode regexes). -/
def upChar (c : Char) : Char := if isLowerA c then Char.ofNat (c.toNat - 32) else c

/-! ### Postcode helpers (`src/Server.js` lines 24-43) -/

/-- Drop whitespace from both ends of a character list (JavaScript `trim`). -/
def trimWS (l : List Char) : List Char :=
  ((l.dropWhile isWS).reverse.dropWhile isWS).reverse

/-- Replace every maximal whitespace run by a single space
(JavaScript `replace(/\s+/g, " ")`).  The boolean records whether the
previous character was whitespace. -/
def collapseWSAux : Bool → List Char → List Char
  | _, [] => []
  | prev, x :: xs =>
    if isWS x then
      if prev then collapseWSAux true xs else ' ' :: collapseWSAux true xs
    else x :: collapseWSAux false xs

def collapseWS (l : List Char) : List Char := collapseWSAux false l

/-- `normalizePostcode` (lines 24-27): trim, upper-case, collapse whitespace. -/
def normalizePostcode (pc : String) : String :=
  if pc = "" then ""
  else String.mk (collapseWS ((trimWS pc.toList).map upChar))

/-- `getOutcode` (lines 29-31): `split(" ")[0]`, the segment before the first
space. -/
def getOutcode (fullPostcode : String) : String :=
  String.mk (fullPostcode.toList.takeWhile (fun c => c != ' '))

/-- Character class `[0-9R]` under the regex's `i` flag. -/
def isDigitRAny (c : Char) : Bool := isDigitA c || c == 'R' || c == 'r'

/-- Character class `[0-9R]` in the canonical (upper-case-only) grammar. -/
def isDigitRUp (c : Char) : Bool := isDigitA c || c == 'R'

/-- Character class `[0-9A-Z]` in the canonical (upper-case-only) grammar. -/
def isAlnumUp (c : Char) : Bool := isUpperA c || isDigitA c

/-- The regex `^[A-Z]{1,2}[0-9R][0-9A-Z]? [0-9][A-Z]{2}$` with the `i` flag
(lines 33-36), unfolded by total length (6, 7 or 8 characters). -/
def matchIList : List Char → Bool
  | [a, b, s, d, e, f] =>
    isAlphaAny a && isDigitRAny b && (s == ' ') && isDigitA d &&
      isAlphaAny e && isAlphaAny f
  | [a, b, c, s, d, e, f] =>
    (s == ' ') && isDigitA d && isAlphaAny e && isAlphaAny f &&
      ((isAlphaAny a && isDigitRAny b && isAlnumAny c) ||
       (isAlphaAny a && isAlphaAny b && isDigitRAny c))
  | [a, b, c, x, s, d, e, f] =>
    isAlphaAny a && isAlphaAny b && isDigitRAny c && isAlnumAny x &&
      (s == ' ') && isDigitA d && isAlphaAny e && isAlphaAny f
  | _ => false

/-- `isValidUKPostcode` (lines 33-36). -/
def isValidUKPostcode (postcode : String) : Bool := matchIList postcode.toList

/-- Modelled from the spec: the canonical grammar
`^[A-Z]{1,2}[0-9R][0-9A-Z]? [0-9][A-Z]{2}$` (upper-case only, no `i` flag),
unfolded by total length exactly as `matchIList`. -/
def matchUList : List Char → Bool
  | [a, b, s, d, e, f] =>
    isUpperA a && isDigitRUp b && (s == ' ') && isDigitA d &&
      isUpperA e && isUpperA f
  | [a, b, c, s, d, e, f] =>
    (s == ' ') && isDigitA d && isUpperA e && isUpperA f &&
      ((isUpperA a && isDigitRUp b && isAlnumUp c) ||
       (isUpperA a && isUpperA b && isDigitRUp c))
  | [a, b, c, x, s, d, e, f] =>
    isUpperA a && isUpperA b && isDigitRUp c && isAlnumUp x &&
      (s == ' ') && isDigitA d && isUpperA e && isUpperA f
  | _ => false

/-- Modelled from the spec: membership in the canonical UK postcode grammar. -/
def specCanonicalGrammar (s : String) : Bool := matchUList s.toList

/-- Modelled from the spec: "trims, upper-cases, collapses internal whitespace
runs to a single space". -/
def specNormalizeTransform (pc : String) : String :=
  String.mk (collapseWS ((trimWS pc.toList).map upChar))

/-- Strip non-alphanumeric characters and upper-case, the `cleaned` value of
`tryAutoFormatPostcode` (line 39). -/
def stripAlnumUp (l : List Char) : List Char := (l.filter isAlnumAny).map upChar

/-- `tryAutoFormatPostcode` (lines 38-43). -/
def tryAutoFormatPostcode (input : String) : Option String :=
  let cleaned := stripAlnumUp input.toList
  if cleaned.length < 5 || cleaned.length > 7 then none
  else
    let formatted :=
      String.mk (cleaned.take (cleaned.length - 3) ++ ' ' :: cleaned.drop (cleaned.length - 3))
    if isValidUKPostcode formatted then some formatted else none

/-- Postcode recovery (lines 101-115): normalize and validate, else
auto-format the original raw input; `none` means the 400 postcode error. -/
def resolvePostcode (raw : String) : Option String :=
  let fp := normalizePostcode raw
  if isValidUKPostcode fp then some fp else tryAutoFormatPostcode raw

/-! ### Lemmas for claim C7 -/

theorem upChar_no_lower (c : Char) : isLowerA (upChar c) = false := by
  unfold upChar
  split_ifs with h
  · have hb : 97 ≤ c.toNat ∧ c.toNat ≤ 122 := by
      simpa [isLowerA] using h
    obtain ⟨h1, h2⟩ := hb
    generalize hm : c.toNat = m at h1 h2 ⊢
    interval_cases m <;> decide
  · cases hb : isLowerA c with
    | false => rfl
    | true => exact absurd hb h

theorem alpha_eq_of_no_lower {c : Char} (h : isLowerA c = false) :
    isAlphaAny c = isUpperA c := by
  simp [isAlphaAny, h]

theorem digitR_eq_of_no_lower {c : Char} (h : isLowerA c = false) :
    isDigitRAny c = isDigitRUp c := by
  have hr : (c == 'r') = false := by
    cases hcc : c == 'r' with
    | false => rfl
    | true =>
      have hc : c = 'r' := by exact beq_iff_eq.mp hcc
      rw [hc] at h
      exact absurd h (by decide)
  simp [isDigitRAny, isDigitRUp, hr]

theorem alnum_eq_of_no_lower {c : Char} (h : isLowerA c = false) :
    isAlnumAny c = isAlnumUp c := by
  simp [isAlnumAny, isAlnumUp, isAlphaAny, h]

theorem matchEq (l : List Char) (h : ∀ c ∈ l, isLowerA c = false) :
    matchIList l = matchUList l := by
  rcases l with _ | ⟨a, _ | ⟨b, _ | ⟨c3, _ | ⟨d4, _ | ⟨e5, _ | ⟨f6, _ | ⟨g7, _ | ⟨i8, _ | ⟨j9, rest⟩⟩⟩⟩⟩⟩⟩⟩⟩
  · rfl
  · rfl
  · rfl
  · rfl
  · rfl
  · rfl
  · have ha := alpha_eq_of_no_lower (h a (by simp))
    have hb := digitR_eq_of_no_lower (h b (by simp))
    have he := alpha_eq_of_no_lower (h e5 (by simp))
    have hf := alpha_eq_of_no_lower (h f6 (by simp))
    simp [matchIList, matchUList, ha, hb, he, hf]
  · have ha := alpha_eq_of_no_lower (h a (by simp))
    have hb1 := digitR_eq_of_no_lower (h b (by simp))
    have hb2 := alpha_eq_of_no_lower (h b (by simp))
    have hc1 := alnum_eq_of_no_lower (h c3 (by simp))
    have hc2 := digitR_eq_of_no_lower (h c3 (by simp))
    have hf := alpha_eq_of_no_lower (h f6 (by simp))
    have hg := alpha_eq_of_no_lower (h g7 (by simp))
    simp [matchIList, matchUList, ha, hb1, hb2, hc1, hc2, hf, hg]
  · have ha := alpha_eq_of_no_lower (h a (by simp))
    have hb := alpha_eq_of_no_lower (h b (by simp))
    have hc := digitR_eq_of_no_lower (h c3 (by simp))
    have hd := alnum_eq_of_no_lower (h d4 (by simp))
    have hg := alpha_eq_of_no_lower (h g7 (by simp))
    have hi := alpha_eq_of_no_lower (h i8 (by simp))
    simp [matchIList, matchUList, ha, hb, hc, hd, hg, hi]
  · rfl

theorem mem_collapseWSAux {c : Char} :
    ∀ (l : List Char) (b : Bool), c ∈ collapseWSAux b l → c = ' ' ∨ c ∈ l := by
  intro l
  induction l with
  | nil => intro b h; simp [collapseWSAux] at h
  | cons x xs ih =>
    intro b h
    unfold collapseWSAux at h
    by_cases hw : isWS x = true
    · rw [if_pos hw] at h
      by_cases hb : b = true
      · rw [if_pos hb] at h
        rcases ih true h with h1 | h2
        · exact Or.inl h1
        · exact Or.inr (List.mem_cons_of_mem _ h2)
      · rw [if_neg hb] at h
        rcases List.mem_cons.mp h with h1 | h2
        · exact Or.inl h1
        · rcases ih true h2 with h3 | h4
          · exact Or.inl h3
          · exact Or.inr (List.mem_cons_of_mem _ h4)
    · rw [if_neg hw] at h
      rcases List.mem_cons.mp h with h1 | h2
      · exact Or.inr (by rw [h1]; exact List.mem_cons_self _ _)
      · rcases ih false h2 with h3 | h4
        · exact Or.inl h3
        · exact Or.inr (List.mem_cons_of_mem _ h4)

theorem no_lower_normalize (pc : String) :
    ∀ c ∈ (normalizePostcode pc).toList, isLowerA c = false := by
  intro c hc
  unfold normalizePostcode at hc
  split_ifs at hc with h
  · rw [show ("" : String).toList = [] from rfl] at hc
    exact absurd hc (List.not_mem_nil c)
  · have hc2 : c ∈ collapseWS ((trimWS pc.toList).map upChar) := hc
    rcases mem_collapseWSAux _ _ hc2 with h1 | h2
    · rw [h1]; decide
    · rcases List.mem_map.mp h2 with ⟨x, _, hx⟩
      rw [← hx]
      exact upChar_no_lower x

theorem specNormalizeTransform_eq (pc : String) :
    normalizePostcode pc = specNormalizeTransform pc := by
  unfold normalizePostcode specNormalizeTransform
  split_ifs with h
  · rw [h]; rfl
  · rfl

/-- C7: for every input string `pc`, `isValid(normalize(pc))` is true iff
`pc`, after trimming, upper-casing, and collapsing internal whitespace runs
to single spaces, matches the canonical grammar
`^[A-Z]{1,2}[0-9R][0-9A-Z]? [0-9][A-Z]{2}$`. -/
theorem claim_C7 (pc : String) :
    isValidUKPostcode (normalizePostcode pc) =
      specCanonicalGrammar (specNormalizeTransform pc) := by
  rw [← specNormalizeTransform_eq]
  exact matchEq _ (no_lower_normalize pc)

example : isValidUKPostcode "SW1A 1AA" = true := by decide
example : isValidUKPostcode "sw1a 1aa" = true := by decide
example : specCanonicalGrammar "sw1a 1aa" = false := by decide
example : normalizePostcode "  sw1a   1aa " = "SW1A 1AA" := by decide
example : tryAutoFormatPostcode "sw1a1aa" = some "SW1A 1AA" := by decide
example : tryAutoFormatPostcode "zzzz" = none := by decide
example : resolvePostcode "sw1a1aa" = some "SW1A 1AA" := by decide
example : getOutcode "SW1A 1AA" = "SW1A" := by decide

/-! ### JSON-ish values and payloads -/

/-- A primitive JSON field value as inspected by the handler: a number or a
string. -/
inductive JVal where
  | jnum (q : ℚ)
  | jstr (s : String)
deriving DecidableEq

/-- JavaScript truthiness of a field value (`0` and `""` are falsy). -/
def truthy : JVal → Bool
  | .jnum q => q != 0
  | .jstr s => s != ""

/-- Value of a nonnegative decimal-digit string (the numeric strings the
model lets `parseFloat` accept). -/
def parseDigits (s : String) : Option ℕ :=
  if !s.isEmpty && s.toList.all isDigitA then
    some (s.toList.foldl (fun a c => a * 10 + (c.toNat - 48)) 0)
  else none

/-- Numeric reading of a field value; `none` models `isNaN(v) = true`. -/
def numVal : JVal → Option ℚ
  | .jnum q => some q
  | .jstr s => (parseDigits s).map (fun n => (n : ℚ))

/-- A result field: a number, a string (possibly the `"N/A"` sentinel), or an
array of numbers. -/
inductive RVal where
  | num (q : ℚ)
  | str (s : String)
  | list (xs : List ℚ)
deriving DecidableEq

def toRVal : JVal → RVal
  | .jnum q => .num q
  | .jstr s => .str s

/-- `v || "N/A"`: JavaScript falsy-defaulting to the `"N/A"` sentinel. -/
def orNA (v : Option JVal) : RVal :=
  match v with
  | some x => if truthy x then toRVal x else .str "N/A"
  | none => .str "N/A"

/-- `a || b || "N/A"` over two optional fields (line 190). -/
def orNA2 (a b : Option JVal) : RVal :=
  match a with
  | some x => if truthy x then toRVal x else orNA b
  | none => orNA b

/-- `v || 0`: falsy-defaulting to `0` (line 248). -/
def orZero (v : Option JVal) : RVal :=
  match v with
  | some x => if truthy x then toRVal x else .num 0
  | none => .num 0

/-- `s || d` over an optional string field (lines 189 and 243). -/
def orStr (v : Option String) (d : String) : String :=
  match v with
  | some s => if s != "" then s else d
  | none => d

/-- The upstream response body, with every field the handler reads modelled
as optional.  `rentAverage` stands for `rent?.average`, `yieldAverage` for
`yield?.average`, and the `data...` fields for the sold-prices `data` block
(`data?.average`, `data?.["70pc_range"]`, `data?.["90pc_range"]`,
`data?.points_analysed`); an absent block and an absent inner field default
identically, so the nesting is flattened. -/
structure Payload where
  status : Option String := none
  postcode : Option String := none
  rental_demand_rating : Option JVal := none
  demand_rating : Option JVal := none
  total_for_rent : Option JVal := none
  days_on_market : Option JVal := none
  months_of_inventory : Option JVal := none
  rentAverage : Option JVal := none
  yieldAverage : Option JVal := none
  dataAverage : Option JVal := none
  dataRange70 : Option (List ℚ) := none
  dataRange90 : Option (List ℚ) := none
  dataPoints : Option JVal := none
deriving DecidableEq

/-- The error-response body attached to a thrown gateway error
(`error.response?.data`); `message` is `""` when absent, which rethrows just
as the raw `undefined` would. -/
structure ErrData where
  code : Option String := none
  message : String := ""
deriving DecidableEq

/-- Outcome of one gateway call (`callPropertyDataAPI`, lines 45-61): the
promise resolves with a parsed body, or it throws — timeout, transport
failure, or an HTTP error status, the latter carrying the provider's
response body. -/
inductive Net where
  | ok (p : Payload)
  | exn (resp : Option ErrData)
deriving DecidableEq

/-- One outbound endpoint invocation, identified by endpoint and query key;
`ptype = none` is the type-omitted sold-prices fallback. -/
inductive Call where
  | demandRent (key : String)
  | localMarket (key : String)
  | soldPrices (key : String) (ptype : Option String)
deriving DecidableEq

/-- Substring test (JavaScript `message.includes(needle)`). -/
def hasSubAux (needle : List Char) : List Char → Bool
  | [] => needle.isEmpty
  | c :: rest => needle.isPrefixOf (c :: rest) || hasSubAux needle rest

def strContainsSub (hay needle : String) : Bool :=
  hasSubAux needle.toList hay.toList

/-! ### Request validation (`src/Server.js` lines 73-99) -/

/-- An inbound request body; each field is absent or a JSON string (the shell
in `src/App.jsx` submits string form fields). -/
structure ReqBody where
  postalCode : Option String := none
  propertyType : Option String := none
  purpose : Option String := none
  bedrooms : Option String := none
deriving DecidableEq

/-- JavaScript `!field` for an optional string: absent or empty. -/
def strFalsy : Option String → Bool
  | none => true
  | some s => s == ""

/-- `list.includes(field)` for an optional string. -/
def oIncludes (l : List String) : Option String → Bool
  | none => false
  | some s => l.contains s

def validPropertyTypes : List String :=
  ["detached", "semi-detached", "terraced", "flat", "maisonette", "bungalow"]

inductive ValError where
  | missingFields
  | invalidType
  | invalidPurpose
  | invalidBedrooms
deriving DecidableEq

/-- The validation chain (lines 77-99); `some e` is the 400 response taken,
`none` means validation passed. -/
def validate (r : ReqBody) : Option ValError :=
  if strFalsy r.postalCode || strFalsy r.propertyType || strFalsy r.purpose then
    some .missingFields
  else if !(oIncludes validPropertyTypes r.propertyType) then
    some .invalidType
  else if !(oIncludes ["sale", "rent"] r.purpose) then
    some .invalidPurpose
  else if r.purpose == some "rent" &&
      (strFalsy r.bedrooms || !(oIncludes ["1", "2", "3", "4"] r.bedrooms)) then
    some .invalidBedrooms
  else none

/-! ### Rent path (`src/Server.js` lines 121-201) -/

/-- `parseInt(bedrooms, 10)` on the validated strings. -/
def bedOfString (b : String) : ℕ :=
  if b == "1" then 1 else if b == "2" then 2
  else if b == "3" then 3 else if b == "4" then 4 else 0

/-- `multipliers[bed] || 1.0` with `{1: 0.8, 2: 1.0, 3: 1.3, 4: 1.6}`
(lines 180-181). -/
def multiplierFor (bed : ℕ) : ℚ :=
  if bed = 1 then 4 / 5
  else if bed = 2 then 1
  else if bed = 3 then 13 / 10
  else if bed = 4 then 8 / 5
  else 1

/-- `Math.round`: floor of x + 1/2. -/
def jsRound (q : ℚ) : ℤ := ⌊q + 1 / 2⌋

/-- The guard `baseRent && !isNaN(baseRent)` (line 175): the numeric reading
used when the field is truthy and numeric. -/
def rentBase : Option JVal → Option ℚ
  | some v => if truthy v then numVal v else none
  | none => none

/-- The adjustment note (line 184); `toLocaleString` digit grouping is
abstracted to the plain rendering of the number. -/
def adjNote (base : ℚ) (bed : ℕ) : String :=
  s!"Adjusted from area average (£{base}) for a {bed}-bedroom property."

/-- The rent result envelope (lines 187-198). -/
structure RentResult where
  rtype : String
  postcode : String
  rentalDemand : RVal
  totalForRent : RVal
  daysOnMarket : RVal
  monthsOfInventory : RVal
  averageRent : RVal
  originalAverageRent : RVal
  yieldAvg : RVal
  note : Option String
deriving DecidableEq

/-- Assembly of the rent result from an obtained payload (lines 170-198). -/
def rentAssemble (fullPostcode bedrooms : String) (data : Payload) : RentResult :=
  let baseRent := data.rentAverage
  let adj : Option (ℚ × ℕ) := (rentBase baseRent).map (fun base => (base, bedOfString bedrooms))
  { rtype := "rent"
    postcode := orStr data.postcode fullPostcode
    rentalDemand := orNA2 data.rental_demand_rating data.demand_rating
    totalForRent := orNA data.total_for_rent
    daysOnMarket := orNA data.days_on_market
    monthsOfInventory := orNA data.months_of_inventory
    averageRent :=
      match adj with
      | some (base, bed) => .num (jsRound (base * multiplierFor bed))
      | none => .str "N/A"
    originalAverageRent := orNA baseRent
    yieldAvg := orNA data.yieldAverage
    note :=
      match adj with
      | some (base, bed) => some (adjNote base bed)
      | none => none }

/-- The sale result envelope (lines 241-252). -/
structure SaleResult where
  stype : String
  postcode : String
  propertyTypeUsed : String
  average : RVal
  range70 : List ℚ
  range90 : List ℚ
  pointsAnalysed : RVal
  note : Option String
deriving DecidableEq

/-- Assembly of the sale result (lines 241-252); `usedAll` records
`usedType === "all"`. -/
def saleAssemble (fullPostcode propertyType : String) (usedAll : Bool) (d : Payload) : SaleResult :=
  { stype := "sale"
    postcode := orStr d.postcode fullPostcode
    propertyTypeUsed :=
      if usedAll then propertyType ++ " (not found – showing area average)" else propertyType
    average := orNA d.dataAverage
    range70 := d.dataRange70.getD []
    range90 := d.dataRange90.getD []
    pointsAnalysed := orZero d.dataPoints
    note :=
      if usedAll then
        some ("⚠️ No recent sales for \"" ++ propertyType ++
          "\" in this postcode. Showing overall area average.")
      else none }

/-- The whole route's observable reply. -/
inductive ApiResponse where
  | validationErr (e : ValError)
  | postcodeErr
  | rentOk (r : RentResult)
  | rentNoData
  | saleOk (r : SaleResult)
  | saleNoData
  | serverErr
  | noReply
deriving DecidableEq

/-- JavaScript `slice(0, -1)`: the string without its last character. -/
def strDropLast (s : String) : String := String.mk s.toList.dropLast

/-- Tiers 1-2 accept a resolved response only when its `status` field is not
`"error"` (lines 130 and 145); a thrown call yields nothing. -/
def usable : Net → Option Payload
  | .ok p => if p.status = some "error" then none else some p
  | .exn _ => none

/-- The rent fallback ladder (lines 124-168), returning the reply and the
ordered list of gateway calls made.  Tier 3 stores `response.data` without a
status check (line 160); only a thrown tier-3 call reaches the 404. -/
def rentFlow (gw : Call → Net) (fullPostcode bedrooms : String) :
    ApiResponse × List Call :=
  let outcode := getOutcode fullPostcode
  let c1 := Call.demandRent outcode
  match usable (gw c1) with
  | some d => (.rentOk (rentAssemble fullPostcode bedrooms d), [c1])
  | none =>
    if outcode.length > 3 then
      let c2 := Call.demandRent (strDropLast outcode)
      match usable (gw c2) with
      | some d => (.rentOk (rentAssemble fullPostcode bedrooms d), [c1, c2])
      | none =>
        let c3 := Call.localMarket fullPostcode
        match gw c3 with
        | .ok d => (.rentOk (rentAssemble fullPostcode bedrooms d), [c1, c2, c3])
        | .exn _ => (.rentNoData, [c1, c2, c3])
    else
      let c3 := Call.localMarket fullPostcode
      match gw c3 with
      | .ok d => (.rentOk (rentAssemble fullPostcode bedrooms d), [c1, c3])
      | .exn _ => (.rentNoData, [c1, c3])

/-! ### Sale path (`src/Server.js` lines 205-256) -/

/-- The distinguished "property type unsupported" pattern (line 220):
`error.response?.data?.code === "902" && error.response.data.message.includes("type")`. -/
def typeUnsupported : Option ErrData → Bool
  | some ed => ed.code == some "902" && strContainsSub ed.message "type"
  | none => false

/-- Error raised by the first sold-prices stage (lines 211-218): `none` when
the call resolved with a non-error status; `some resp` when it threw
(`resp` the carried response body) or when the resolved body had
`status: "error"` — that synthetic `new Error(JSON.stringify(...))` carries
no response, hence `some none`. -/
def firstStage : Net → Option (Option ErrData)
  | .ok d => if d.status = some "error" then some none else none
  | .exn r => some r

/-- Whether the type-omitted fallback call fails (lines 222-235): it throws,
or its body signals `status: "error"`. -/
def fallbackFails : Net → Bool
  | .ok d => decide (d.status = some "error")
  | .exn _ => true

/-- The catch block of the sale path (lines 219-239). -/
def saleCatch (gw : Call → Net) (fullPostcode propertyType : String)
    (resp : Option ErrData) (trace : List Call) : ApiResponse × List Call :=
  if typeUnsupported resp then
    let c2 := Call.soldPrices fullPostcode none
    match gw c2 with
    | .ok d =>
      if d.status = some "error" then (.saleNoData, trace ++ [c2])
      else (.saleOk (saleAssemble fullPostcode propertyType true d), trace ++ [c2])
    | .exn _ => (.saleNoData, trace ++ [c2])
  else (.serverErr, trace)

/-- The sale path (lines 205-256): first sold-prices call with the requested
type; on the distinguished error, one type-omitted retry; any other error is
rethrown to the outer catch (500). -/
def saleFlow (gw : Call → Net) (fullPostcode propertyType : String) :
    ApiResponse × List Call :=
  let c1 := Call.soldPrices fullPostcode (some propertyType)
  match gw c1 with
  | .ok d =>
    if d.status = some "error" then saleCatch gw fullPostcode propertyType none [c1]
    else (.saleOk (saleAssemble fullPostcode propertyType false d), [c1])
  | .exn resp => saleCatch gw fullPostcode propertyType resp [c1]

/-- The whole `POST /api/valuation` handler (lines 67-269). -/
def handleValuation (gw : Call → Net) (r : ReqBody) : ApiResponse × List Call :=
  match validate r with
  | some e => (.validationErr e, [])
  | none =>
    match resolvePostcode (r.postalCode.getD "") with
    | none => (.postcodeErr, [])
    | some fp =>
      if r.purpose == some "rent" then rentFlow gw fp (r.bedrooms.getD "")
      else if r.purpose == some "sale" then saleFlow gw fp (r.propertyType.getD "")
      else (.noReply, [])

/-! ### Shared concrete gateways and requests -/

/-- A gateway on which every call throws with no response body. -/
def gwAllExn : Call → Net := fun _ => .exn none

/-! ### Claim C5 — request validation -/

/-- Modelled from the spec (amended claim): a field counts as missing when it
is absent or the empty string. -/
def fieldAbsentOrEmpty : Option String → Bool
  | none => true
  | some s => s == ""

theorem fieldAbsentOrEmpty_eq (v : Option String) : fieldAbsentOrEmpty v = strFalsy v := by
  cases v <;> rfl

/-- Modelled from the spec (amended claim): the validator's rejection
condition, with "missing" read as absent or empty. -/
def amendedReject (r : ReqBody) : Bool :=
  fieldAbsentOrEmpty r.postalCode || fieldAbsentOrEmpty r.propertyType ||
    fieldAbsentOrEmpty r.purpose ||
    !(oIncludes validPropertyTypes r.propertyType) ||
    !(oIncludes ["sale", "rent"] r.purpose) ||
    (r.purpose == some "rent" &&
      (fieldAbsentOrEmpty r.bedrooms || !(oIncludes ["1", "2", "3", "4"] r.bedrooms)))

/-- Modelled from the spec (original claim C5): the rejection condition with
"missing" read as strictly absent. -/
def claimReject (r : ReqBody) : Bool :=
  r.postalCode.isNone || r.propertyType.isNone || r.purpose.isNone ||
    !(oIncludes validPropertyTypes r.propertyType) ||
    !(oIncludes ["sale", "rent"] r.purpose) ||
    (r.purpose == some "rent" &&
      (r.bedrooms.isNone || !(oIncludes ["1", "2", "3", "4"] r.bedrooms)))

/-- A request whose postalCode is present but the empty string. -/
def reqC5 : ReqBody :=
  { postalCode := some "", propertyType := some "flat", purpose := some "sale" }

/-- C5 counterexample: a request with `postalCode` present but equal to `""`
(and valid propertyType and purpose) satisfies none of the claim's rejection
conditions, yet the validator rejects it (the source tests `!postalCode`,
which is true for the empty string). -/
theorem claim_C5_counterexample :
    claimReject reqC5 = false ∧ (validate reqC5).isSome = true := by decide

/-- C5 (amended): the validator rejects exactly when a required field is
missing *or empty*, or an enumeration check fails, or purpose is rent with
bedrooms missing/empty or outside {1,2,3,4}; and a rejection happens before
postcode handling and before any gateway call (the reply is the 400
validation error and the call trace is empty, for every gateway). -/
theorem claim_C5_amended (gw : Call → Net) (r : ReqBody) :
    ((validate r).isSome = amendedReject r) ∧
      (∀ e, validate r = some e → handleValuation gw r = (.validationErr e, [])) := by
  constructor
  · unfold validate amendedReject
    rw [fieldAbsentOrEmpty_eq, fieldAbsentOrEmpty_eq, fieldAbsentOrEmpty_eq,
      fieldAbsentOrEmpty_eq]
    split_ifs with h1 h2 h3 h4 <;> simp_all
  · intro e he
    simp [handleValuation, he]

/-- Request of the spec's scenario: purpose rent, bedrooms absent. -/
def reqC5w : ReqBody :=
  { postalCode := some "SW1A 1AA", propertyType := some "flat", purpose := some "rent" }

/-- Witness for C5 (amended) at the spec's scenario: purpose rent with
bedrooms absent is rejected with the bedrooms validation error and no
gateway call. -/
theorem claim_C5_witness :
    handleValuation gwAllExn reqC5w = (.validationErr .invalidBedrooms, []) :=
  (claim_C5_amended gwAllExn reqC5w).2 ValError.invalidBedrooms (by decide)

/-! ### Claim C6 — postcode recovery -/

/-- C6: the postcode stage first tries normalize-then-validate; on failure it
auto-formats the *original raw* input, where auto-format fails outside the
stripped length window [5,7], otherwise inserts a single space 3 characters
from the end and accepts only if the result passes `isValid`; if both steps
fail the request is rejected with the 400 postcode error and no gateway call
is made. -/
theorem claim_C6 (gw : Call → Net) (r : ReqBody) (raw : String)
    (hv : validate r = none) (hp : r.postalCode = some raw)
    (hn : isValidUKPostcode (normalizePostcode raw) = false) :
    (resolvePostcode raw = tryAutoFormatPostcode raw) ∧
    ((stripAlnumUp raw.toList).length < 5 ∨ 7 < (stripAlnumUp raw.toList).length →
      tryAutoFormatPostcode raw = none) ∧
    (∀ f, tryAutoFormatPostcode raw = some f →
      f = String.mk ((stripAlnumUp raw.toList).take ((stripAlnumUp raw.toList).length - 3) ++
            ' ' :: (stripAlnumUp raw.toList).drop ((stripAlnumUp raw.toList).length - 3)) ∧
      isValidUKPostcode f = true ∧
      5 ≤ (stripAlnumUp raw.toList).length ∧ (stripAlnumUp raw.toList).length ≤ 7) ∧
    (tryAutoFormatPostcode raw = none → handleValuation gw r = (.postcodeErr, [])) := by
  refine ⟨?_, ?_, ?_, ?_⟩
  · simp [resolvePostcode, hn]
  · intro h
    have hcond : ((stripAlnumUp raw.toList).length < 5 ||
        (stripAlnumUp raw.toList).length > 7) = true := by
      rcases h with h | h
      · rw [decide_eq_true h, Bool.true_or]
      · rw [decide_eq_true h, Bool.or_true]
    simp only [tryAutoFormatPostcode]
    rw [if_pos hcond]
  · intro f hf
    simp only [tryAutoFormatPostcode] at hf
    by_cases h1 : ((stripAlnumUp raw.toList).length < 5 ||
        (stripAlnumUp raw.toList).length > 7) = true
    · rw [if_pos h1] at hf
      cases hf
    · rw [if_neg h1] at hf
      by_cases h2 : isValidUKPostcode (String.mk ((stripAlnumUp raw.toList).take
          ((stripAlnumUp raw.toList).length - 3) ++
          ' ' :: (stripAlnumUp raw.toList).drop ((stripAlnumUp raw.toList).length - 3))) = true
      · rw [if_pos h2] at hf
        have hff := Option.some.inj hf
        simp only [Bool.or_eq_true, decide_eq_true_eq, not_or, not_lt] at h1
        refine ⟨hff.symm, ?_, h1.1, h1.2⟩
        rw [← hff]
        exact h2
      · rw [if_neg h2] at hf
        cases hf
  · intro hf
    simp [handleValuation, hv, hp, resolvePostcode, hn, hf]

/-- Request used by the C6 witness: a raw postcode that neither normalizes
nor auto-formats. -/
def reqC6w : ReqBody :=
  { postalCode := some "zzzz", propertyType := some "flat", purpose := some "sale" }

/-- Witness for C6: `"zzzz"` fails normalization and has stripped length 4,
so auto-format fails and the handler replies with the postcode error making
no gateway call. -/
theorem claim_C6_witness :
    handleValuation gwAllExn reqC6w = (.postcodeErr, []) :=
  (claim_C6 gwAllExn reqC6w "zzzz" (by decide) rfl (by decide)).2.2.2 (by decide)

/-! ### Claim C1 — third-tier failure handling on the rent path -/

/-- A payload whose only content is a provider-level error status. -/
def pErrStatus : Payload := { status := some "error" }

/-- A gateway whose demand-rent calls throw and whose local-market call
resolves (HTTP success) with a body signalling `status: "error"`. -/
def gwC1 : Call → Net := fun c =>
  match c with
  | .localMarket _ => .ok pErrStatus
  | _ => .exn none

def reqC1 : ReqBody :=
  { postalCode := some "SW1A 1AA", propertyType := some "flat",
    purpose := some "rent", bedrooms := some "2" }

/-- C1 counterexample: tiers 1-2 yield nothing and the tier-3 local-market
call resolves with a body whose provider-level status field signals an error;
the claim demands the 404 "no rental data" failure, but the handler stores
the body unchecked (line 160) and returns a rent result envelope. -/
theorem claim_C1_counterexample :
    (handleValuation gwC1 reqC1).1 =
      ApiResponse.rentOk (rentAssemble "SW1A 1AA" "2" pErrStatus) ∧
    (handleValuation gwC1 reqC1).1 ≠ ApiResponse.rentNoData := by decide

/-- C1 (amended): when the first two rent tiers yield no usable payload, the
request fails with the 404 "no rental data" error exactly when the third-tier
local-market call *throws*; a third-tier call that resolves is used as the
payload even when its provider-level status field signals an error. -/
theorem claim_C1_amended (gw : Call → Net) (fp b : String)
    (h1 : usable (gw (.demandRent (getOutcode fp))) = none)
    (h2 : (getOutcode fp).length > 3 →
      usable (gw (.demandRent (strDropLast (getOutcode fp)))) = none) :
    (∀ e, gw (.localMarket fp) = .exn e → (rentFlow gw fp b).1 = .rentNoData) ∧
    (∀ d, gw (.localMarket fp) = .ok d →
      (rentFlow gw fp b).1 = .rentOk (rentAssemble fp b d)) := by
  constructor
  · intro e he
    by_cases hlen : (getOutcode fp).length > 3
    · simp [rentFlow, h1, h2 hlen, hlen, he]
    · simp [rentFlow, h1, hlen, he]
  · intro d hd
    by_cases hlen : (getOutcode fp).length > 3
    · simp [rentFlow, h1, h2 hlen, hlen, hd]
    · simp [rentFlow, h1, hlen, hd]

/-- Witness for C1 (amended): with every upstream call throwing, a rent
request ends in the 404 "no rental data" reply. -/
theorem claim_C1_witness :
    (rentFlow gwAllExn "SW1A 1AA" "2").1 = ApiResponse.rentNoData :=
  (claim_C1_amended gwAllExn "SW1A 1AA" "2" rfl (fun _ => rfl)).1 none rfl

/-! ### Claim C8 — rent fallback tier order -/

/-- C8: the rent tiers run in order and stop at the first usable response:
a usable outcode-keyed response is used with no later call; when it is not
usable and the outcode is longer than 3 characters, a usable response keyed
by the parent outcode (the outcode minus its last character) is used with no
later call; when the outcode-keyed tier fails and the outcode is short, the
ladder proceeds directly to the local-market call. -/
theorem claim_C8 (gw : Call → Net) (fp b : String) :
    (∀ d, usable (gw (.demandRent (getOutcode fp))) = some d →
      rentFlow gw fp b =
        (.rentOk (rentAssemble fp b d), [.demandRent (getOutcode fp)])) ∧
    (usable (gw (.demandRent (getOutcode fp))) = none → (getOutcode fp).length > 3 →
      ∀ d2, usable (gw (.demandRent (strDropLast (getOutcode fp)))) = some d2 →
      rentFlow gw fp b =
        (.rentOk (rentAssemble fp b d2),
          [.demandRent (getOutcode fp), .demandRent (strDropLast (getOutcode fp))])) ∧
    (usable (gw (.demandRent (getOutcode fp))) = none → ¬(getOutcode fp).length > 3 →
      (rentFlow gw fp b).2 = [.demandRent (getOutcode fp), .localMarket fp]) := by
  refine ⟨?_, ?_, ?_⟩
  · intro d hd
    simp [rentFlow, hd]
  · intro h1 hlen d2 hd2
    simp [rentFlow, h1, hlen, hd2]
  · intro h1 hlen
    cases hc : gw (.localMarket fp) <;> simp [rentFlow, h1, hlen, hc]

/-- Payload returned by the parent-outcode tier in the C8 witness. -/
def pC8 : Payload := { rental_demand_rating := some (.jstr "high") }

/-- Gateway for the C8 witness: the outcode-keyed demand-rent call throws,
the parent-outcode call succeeds. -/
def gwC8 : Call → Net := fun c =>
  match c with
  | .demandRent k => if k = "SW1A" then .exn none else .ok pC8
  | _ => .exn none

/-- Witness for C8: outcode "SW1A" fails, parent outcode "SW1" succeeds, and
the result is assembled from the parent-outcode payload after exactly those
two calls. -/
theorem claim_C8_witness :
    rentFlow gwC8 "SW1A 1AA" "2" =
      (.rentOk (rentAssemble "SW1A 1AA" "2" pC8),
        [.demandRent (getOutcode "SW1A 1AA"),
         .demandRent (strDropLast (getOutcode "SW1A 1AA"))]) :=
  (claim_C8 gwC8 "SW1A 1AA" "2").2.1 (by decide) (by decide) pC8 (by decide)

/-! ### Claim C2 — sale error classification -/

def reqC2 : ReqBody :=
  { postalCode := some "SW1A 1AA", propertyType := some "flat", purpose := some "sale" }

/-- C2 counterexample: a transport failure on the first sold-prices call is
not the distinguished 902/"type" pattern, so the claim demands the 404
"no sale data" error; the code instead rethrows it to the outer catch and
replies with the generic 500. -/
theorem claim_C2_counterexample :
    (handleValuation gwAllExn reqC2).1 = ApiResponse.serverErr ∧
    (handleValuation gwAllExn reqC2).1 ≠ ApiResponse.saleNoData := by decide

/-- C2 (amended): an error on the first sold-prices call other than the
distinguished "property type unsupported" pattern is rethrown and the
request ends with the generic 500 upstream error, not the 404; the 404
"no sale data" error arises from failure of the type-omitted fallback call
itself (a throw, or a resolved fallback body whose status signals an
error). -/
theorem claim_C2_amended (gw : Call → Net) (fp pt : String) (e : Option ErrData)
    (h : firstStage (gw (.soldPrices fp (some pt))) = some e) :
    (typeUnsupported e = false → (saleFlow gw fp pt).1 = .serverErr) ∧
    (typeUnsupported e = true → fallbackFails (gw (.soldPrices fp none)) = true →
      (saleFlow gw fp pt).1 = .saleNoData) := by
  cases hg : gw (.soldPrices fp (some pt)) with
  | ok d =>
    rw [hg] at h
    by_cases hs : d.status = some "error"
    · rw [firstStage, if_pos hs] at h
      have he := Option.some.inj h
      subst he
      constructor
      · intro ht
        simp [saleFlow, hg, hs, saleCatch, typeUnsupported]
      · intro ht
        rw [typeUnsupported] at ht
        cases ht
    · rw [firstStage, if_neg hs] at h
      cases h
  | exn resp =>
    rw [hg, firstStage] at h
    have he := Option.some.inj h
    subst he
    constructor
    · intro ht
      simp [saleFlow, hg, saleCatch, ht]
    · intro ht hf
      cases hg2 : gw (.soldPrices fp none) with
      | ok d2 =>
        rw [hg2, fallbackFails, decide_eq_true_eq] at hf
        simp [saleFlow, hg, saleCatch, ht, hg2, hf]
      | exn r2 =>
        simp [saleFlow, hg, saleCatch, ht, hg2]

/-- The distinguished provider error used by the sale-path witnesses. -/
def edC2 : ErrData := { code := some "902", message := "property type unavailable" }

/-- Gateway for the C2 witness: the typed sold-prices call throws with the
902/"type" body, the type-omitted fallback call throws with no body. -/
def gwC2w : Call → Net := fun c =>
  match c with
  | .soldPrices _ (some _) => .exn (some edC2)
  | _ => .exn none

/-- Witness for C2 (amended): with the distinguished error on the first call
and a failing fallback call, the reply is the 404 "no sale data" error. -/
theorem claim_C2_witness :
    typeUnsupported (some edC2) = true ∧
      (saleFlow gwC2w "SW1A 1AA" "flat").1 = ApiResponse.saleNoData :=
  ⟨by decide,
   (claim_C2_amended gwC2w "SW1A 1AA" "flat" (some edC2) rfl).2 (by decide) rfl⟩

/-! ### Claim C3 — sale type-unsupported fallback -/

/-- C3: on the distinguished "property type unsupported" error the sale path
retries the same endpoint with the type filter omitted, and a successful
retry yields the area-average result (substituted property-type label and a
non-null note) after exactly the two calls; a successful first call yields
the typed result after exactly one call, with a null note. -/
theorem claim_C3 (gw : Call → Net) (fp pt : String) :
    (∀ ed d2, gw (.soldPrices fp (some pt)) = .exn (some ed) →
      typeUnsupported (some ed) = true →
      gw (.soldPrices fp none) = .ok d2 → ¬d2.status = some "error" →
      saleFlow gw fp pt =
        (.saleOk (saleAssemble fp pt true d2),
          [.soldPrices fp (some pt), .soldPrices fp none]) ∧
      (saleAssemble fp pt true d2).note ≠ none ∧
      (saleAssemble fp pt true d2).propertyTypeUsed =
        pt ++ " (not found – showing area average)") ∧
    (∀ d, gw (.soldPrices fp (some pt)) = .ok d → ¬d.status = some "error" →
      saleFlow gw fp pt = (.saleOk (saleAssemble fp pt false d), [.soldPrices fp (some pt)]) ∧
      (saleAssemble fp pt false d).note = none) := by
  constructor
  · intro ed d2 hg ht hg2 hs2
    refine ⟨?_, ?_, ?_⟩
    · simp [saleFlow, hg, saleCatch, ht, hg2, hs2]
    · simp [saleAssemble]
    · simp [saleAssemble]
  · intro d hg hs
    refine ⟨?_, ?_⟩
    · simp [saleFlow, hg, hs]
    · simp [saleAssemble]

/-- Payload returned by the type-omitted retry in the C3 witness. -/
def pC3 : Payload := { dataAverage := some (.jnum 300000) }

/-- Gateway for the C3 witness: the typed call fails with the distinguished
902/"type" error, the type-omitted retry succeeds. -/
def gwC3w : Call → Net := fun c =>
  match c with
  | .soldPrices _ (some _) => .exn (some edC2)
  | .soldPrices _ none => .ok pC3
  | _ => .exn none

/-- Witness for C3 at the spec's scenario (`propertyType = bungalow`): the
type-unsupported error triggers the type-omitted retry, whose success gives
the area-average result with a non-null note. -/
theorem claim_C3_witness :
    saleFlow gwC3w "SW1A 1AA" "bungalow" =
      (.saleOk (saleAssemble "SW1A 1AA" "bungalow" true pC3),
        [.soldPrices "SW1A 1AA" (some "bungalow"), .soldPrices "SW1A 1AA" none]) ∧
    (saleAssemble "SW1A 1AA" "bungalow" true pC3).note ≠ none := by
  have h := (claim_C3 gwC3w "SW1A 1AA" "bungalow").1 edC2 pC3 rfl (by decide) rfl (by decide)
  exact ⟨h.1, h.2.1⟩

/-! ### Claim C4 — rent adjustment -/

/-- A payload whose rent average is present, numeric, and zero. -/
def pC4 : Payload := { rentAverage := some (.jnum 0) }

/-- Gateway for the C4 counterexample: the first demand-rent call succeeds
with a rent average of 0. -/
def gwC4 : Call → Net := fun c =>
  match c with
  | .demandRent _ => .ok pC4
  | _ => .exn none

/-- C4 counterexample: the payload's rent-average field is present and
numeric with value 0, so the claim demands `averageRent = round(0 × 1.0) = 0`
and a non-null note; the guard `baseRent && !isNaN(baseRent)` (line 175) is
falsy at 0, so the code returns `averageRent = "N/A"` and a null note. -/
theorem claim_C4_counterexample :
    pC4.rentAverage = some (.jnum 0) ∧
    (rentFlow gwC4 "SW1A 1AA" "2").1 = .rentOk (rentAssemble "SW1A 1AA" "2" pC4) ∧
    (rentAssemble "SW1A 1AA" "2" pC4).averageRent = RVal.str "N/A" ∧
    (rentAssemble "SW1A 1AA" "2" pC4).note = none := by decide

/-- C4 (amended): when the rent-average field is present, numeric and
*non-zero*, `averageRent = round(baseRent × multiplier[bedrooms])` with
multipliers {1: 0.8, 2: 1.0, 3: 1.3, 4: 1.6} and the note is non-null; when
the field is absent, non-numeric, or zero, `averageRent = "N/A"` and the
note is null. -/
theorem claim_C4_amended (fp b : String) (p : Payload) :
    (∀ q : ℚ, p.rentAverage = some (.jnum q) → q ≠ 0 →
      (rentAssemble fp b p).averageRent =
        .num (jsRound (q * multiplierFor (bedOfString b))) ∧
      (rentAssemble fp b p).note ≠ none) ∧
    (p.rentAverage = none →
      (rentAssemble fp b p).averageRent = .str "N/A" ∧
      (rentAssemble fp b p).note = none) ∧
    (∀ s, p.rentAverage = some (.jstr s) → numVal (.jstr s) = none →
      (rentAssemble fp b p).averageRent = .str "N/A" ∧
      (rentAssemble fp b p).note = none) ∧
    (multiplierFor 1 = 4 / 5 ∧ multiplierFor 2 = 1 ∧
      multiplierFor 3 = 13 / 10 ∧ multiplierFor 4 = 8 / 5) := by
  refine ⟨?_, ?_, ?_, by norm_num [multiplierFor]⟩
  · intro q hq hq0
    have hb : (q != 0) = true := by simpa using hq0
    constructor
    · simp [rentAssemble, rentBase, hq, truthy, hb, numVal]
    · simp [rentAssemble, rentBase, hq, truthy, hb, numVal]
  · intro hq
    constructor
    · simp [rentAssemble, rentBase, hq]
    · simp [rentAssemble, rentBase, hq]
  · intro s hq hnum
    by_cases hs : (s != "") = true
    · constructor
      · simp [rentAssemble, rentBase, hq, truthy, hs, hnum]
      · simp [rentAssemble, rentBase, hq, truthy, hs, hnum]
    · constructor
      · simp [rentAssemble, rentBase, hq, truthy, hs]
      · simp [rentAssemble, rentBase, hq, truthy, hs]

/-- A payload whose rent average is 1000. -/
def pC4w : Payload := { rentAverage := some (.jnum 1000) }

/-- Witness for C4 (amended): base rent 1000 with 1 bedroom gives
`round(1000 × 0.8) = 800` and a non-null note. -/
theorem claim_C4_witness :
    (rentAssemble "SW1A 1AA" "1" pC4w).averageRent = RVal.num 800 ∧
    (rentAssemble "SW1A 1AA" "1" pC4w).note ≠ none := by
  have h := (claim_C4_amended "SW1A 1AA" "1" pC4w).1 1000 rfl (by norm_num)
  refine ⟨?_, h.2⟩
  rw [h.1]
  have hb : bedOfString "1" = 1 := by decide
  rw [hb]
  norm_num [jsRound, multiplierFor, Int.floor_eq_iff]

/-! ### Claim C9 — concrete sale scenario -/

/-- Sold-prices payload of the spec's scenario. -/
def pC9 : Payload :=
  { dataAverage := some (.jnum 500000), dataRange70 := some [400000, 600000],
    dataPoints := some (.jnum 42) }

/-- Gateway for the C9 scenario: the typed sold-prices call succeeds. -/
def gwC9 : Call → Net := fun c =>
  match c with
  | .soldPrices _ (some _) => .ok pC9
  | _ => .exn none

def reqC9 : ReqBody :=
  { postalCode := some "sw1a1aa", propertyType := some "flat", purpose := some "sale" }

/-- C9: the request `{postalCode:"sw1a1aa", propertyType:"flat",
purpose:"sale"}` resolves to postcode "SW1A 1AA" with outcode "SW1A", and a
successful first sold-prices call with average 500000, 70pc range
[400000, 600000] and 42 points analysed yields the sale envelope with those
values, a null note, and exactly one gateway call. -/
theorem claim_C9 :
    resolvePostcode "sw1a1aa" = some "SW1A 1AA" ∧
    getOutcode "SW1A 1AA" = "SW1A" ∧
    handleValuation gwC9 reqC9 =
      (.saleOk { stype := "sale", postcode := "SW1A 1AA", propertyTypeUsed := "flat",
                 average := .num 500000, range70 := [400000, 600000], range90 := [],
                 pointsAnalysed := .num 42, note := none },
       [.soldPrices "SW1A 1AA" (some "flat")]) := by decide

/-! ### Claim C10 — falsy field defaulting -/

/-- C10: result fields assembled with `||`-defaulting treat any falsy field
value as absent: a present 0 in `days_on_market` or in the sale data block's
`average` is reported as "N/A"; a present 0 in `rent.average` yields
`averageRent = "N/A"`, `originalAverageRent = "N/A"` and a null note; a
present empty-string `total_for_rent` is reported as "N/A". -/
theorem claim_C10 (fp b pt : String) (p : Payload) :
    (p.days_on_market = some (.jnum 0) →
      (rentAssemble fp b p).daysOnMarket = .str "N/A") ∧
    (p.dataAverage = some (.jnum 0) →
      ∀ usedAll, (saleAssemble fp pt usedAll p).average = .str "N/A") ∧
    (p.rentAverage = some (.jnum 0) →
      (rentAssemble fp b p).averageRent = .str "N/A" ∧
      (rentAssemble fp b p).originalAverageRent = .str "N/A" ∧
      (rentAssemble fp b p).note = none) ∧
    (p.total_for_rent = some (.jstr "") →
      (rentAssemble fp b p).totalForRent = .str "N/A") := by
  refine ⟨?_, ?_, ?_, ?_⟩
  · intro h
    simp [rentAssemble, orNA, h, truthy]
  · intro h usedAll
    simp [saleAssemble, orNA, h, truthy]
  · intro h
    refine ⟨?_, ?_, ?_⟩
    · simp [rentAssemble, rentBase, h, truthy]
    · simp [rentAssemble, orNA, h, truthy]
    · simp [rentAssemble, rentBase, h, truthy]
  · intro h
    simp [rentAssemble, orNA, h, truthy]

/-- Payload with falsy-but-present fields for the C10 witness. -/
def pC10 : Payload :=
  { days_on_market := some (.jnum 0), rentAverage := some (.jnum 0),
    total_for_rent := some (.jstr ""), dataAverage := some (.jnum 0) }

/-- Witness for C10: each falsy present field of `pC10` is reported as the
"N/A" sentinel. -/
theorem claim_C10_witness :
    (rentAssemble "SW1A 1AA" "2" pC10).daysOnMarket = RVal.str "N/A" ∧
    (saleAssemble "SW1A 1AA" "flat" false pC10).average = RVal.str "N/A" ∧
    (rentAssemble "SW1A 1AA" "2" pC10).averageRent = RVal.str "N/A" ∧
    (rentAssemble "SW1A 1AA" "2" pC10).totalForRent = RVal.str "N/A" :=
  ⟨(claim_C10 "SW1A 1AA" "2" "flat" pC10).1 rfl,
   (claim_C10 "SW1A 1AA" "2" "flat" pC10).2.1 rfl false,
   ((claim_C10 "SW1A 1AA" "2" "flat" pC10).2.2.1 rfl).1,
   (claim_C10 "SW1A 1AA" "2" "flat" pC10).2.2.2 rfl⟩
